import Mathlib

/-!
Shallow embedding of the `api-admin-store` e-commerce backend, centred on the
order-placement handler (`POST /orders` in `src/routes/orders.js`), the order
validator (`validateOrder` in the validation middleware), and the admin
status-update handler (`PATCH /orders/:id/status`).

Numbers that JavaScript stores as `Number` are modelled as exact rationals
(prices, money amounts) and integers (inventory counts, quantities); document
identifiers are modelled as naturals.  The document store is modelled as a
pair of lists of documents (products and orders) together with the counter and
clock the order repository uses to assign identifiers and timestamps.
-/

set_option autoImplicit false

namespace AdminStore

/-- Projection of the `Product` mongoose document onto the fields the order
flow reads and writes: `_id`, `name`, `price`, `inventory`
(`src/unnamed/part_001`, `productSchema`). -/
structure Product where
  _id : Nat
  name : String
  price : ℚ
  inventory : ℤ
deriving Repr, DecidableEq

/-- One entry of the `items` array of an order request: a product id and a
requested quantity. -/
structure CartItem where
  product : Nat
  quantity : ℤ
deriving Repr, DecidableEq

/-- A persisted line-item snapshot, as pushed onto `processedItems` by the
`POST /orders` handler: product id, name and price copied from the product at
processing time, plus the requested quantity. -/
structure OrderItem where
  product : Nat
  name : String
  price : ℚ
  quantity : ℤ
deriving Repr, DecidableEq

/-- JavaScript truthiness of an optional string value: `undefined` and the
empty string are falsy, every other string is truthy. -/
def jsTruthyStr : Option String → Bool
  | none => false
  | some s => s ≠ ""

/-- A JavaScript numeric value: either `NaN` or an actual (rational) number. -/
inductive JSNum where
  | nan : JSNum
  | num (q : ℚ) : JSNum
deriving Repr, DecidableEq

/-- JavaScript truthiness of an optional number: `undefined`, `NaN` and `0`
are falsy. -/
def jsTruthyNum : Option JSNum → Bool
  | none => false
  | some .nan => false
  | some (.num q) => q ≠ 0

/-- `isNaN(x)` for an optional number (`isNaN(undefined)` is `true`). -/
def jsIsNaN : Option JSNum → Bool
  | none => true
  | some .nan => true
  | some (.num _) => false

/-- `x <= 0` for an optional number (`undefined <= 0` and `NaN <= 0` are
`false`). -/
def jsLeZero : Option JSNum → Bool
  | none => false
  | some .nan => false
  | some (.num q) => decide (q ≤ 0)

/-- A shipping address as it arrives in the request body: each field may be
absent (or empty, which JavaScript treats the same under `!`). -/
structure Address where
  name : Option String
  street : Option String
  city : Option String
  postalCode : Option String
  country : Option String
deriving Repr, DecidableEq

/-- An order document, as created by the `POST /orders` handler and completed
by the order repository (identifier, timestamp, `status` default,
`trackingNumber` set later by the admin route). -/
structure Order where
  _id : Nat
  user : Nat
  items : List OrderItem
  shippingAddress : Address
  paymentMethod : String
  subtotal : ℚ
  tax : ℚ
  shipping : ℚ
  total : ℚ
  notes : Option String
  status : String
  trackingNumber : Option String
  createdAt : Nat
deriving Repr, DecidableEq

/-- The document store visible to the order flow: the product collection, the
order collection, the counter from which the repository assigns order
identifiers, and the current time used for `createdAt`. -/
structure Store where
  products : List Product
  orders : List Order
  nextOrderId : Nat
  now : Nat
deriving Repr, DecidableEq

/-- `Product.findById`: first product in the collection with the given id. -/
def findById (ps : List Product) (id : Nat) : Option Product :=
  ps.find? (fun p => p._id = id)

/-- `product.save()`: persist the mutated product document, replacing the
stored document with the same `_id`. -/
def saveProduct (ps : List Product) (p : Product) : List Product :=
  ps.map (fun q => if q._id = p._id then p else q)

/-- The two failures the `POST /orders` handler reports with HTTP 400:
an unresolvable product id, or insufficient inventory (reporting the product
name and the available quantity). -/
inductive PlaceError where
  | productNotFound (id : Nat) : PlaceError
  | insufficientInventory (name : String) (available : ℤ) : PlaceError
deriving Repr, DecidableEq

/-- The `for (const item of items)` loop of the `POST /orders` handler: fetch
the product, fail on a missing product or insufficient inventory, otherwise
decrement and save the inventory immediately, accumulate the subtotal and the
line-item snapshot, and continue with the next item.  The product collection
that results from the decrements committed so far is returned in both the
error and the success case. -/
def processItems : List CartItem → List Product → ℚ → List OrderItem →
    List Product × Except PlaceError (ℚ × List OrderItem)
  | [], ps, subtotal, acc => (ps, .ok (subtotal, acc))
  | item :: rest, ps, subtotal, acc =>
    match findById ps item.product with
    | none => (ps, .error (.productNotFound item.product))
    | some product =>
      if product.inventory < item.quantity then
        (ps, .error (.insufficientInventory product.name product.inventory))
      else
        processItems rest
          (saveProduct ps { product with inventory := product.inventory - item.quantity })
          (subtotal + product.price * (item.quantity : ℚ))
          (acc ++ [{ product := product._id, name := product.name,
                     price := product.price, quantity := item.quantity }])

/-- Modelled from the spec: the Order repository (`models/Order.js` is not in
the source tree).  `insert(Order) → Order` assigns the identifier and the
creation timestamp, and the schema defaults `status` to `"pending"` and
leaves `trackingNumber` unset; the spec states the Order is persisted with
status "pending" and returned with its assigned identifier and timestamp. -/
def insertOrder (st : Store) (user : Nat) (items : List OrderItem)
    (shippingAddress : Address) (paymentMethod : String)
    (subtotal tax shipping total : ℚ) (notes : Option String) : Store × Order :=
  let o : Order :=
    { _id := st.nextOrderId
      user := user
      items := items
      shippingAddress := shippingAddress
      paymentMethod := paymentMethod
      subtotal := subtotal
      tax := tax
      shipping := shipping
      total := total
      notes := notes
      status := "pending"
      trackingNumber := none
      createdAt := st.now }
  ({ st with orders := st.orders ++ [o], nextOrderId := st.nextOrderId + 1 }, o)

/-- The `POST /orders` handler after validation: process the items in input
order, then compute `tax = subtotal * 0.1`,
`shipping = subtotal > 100 ? 0 : 10`, `total = subtotal + tax + shipping`,
build the order and save it.  On an item failure the inventory decrements
already committed are kept but no order is inserted. -/
def placeOrder (userId : Nat) (items : List CartItem) (shippingAddress : Address)
    (paymentMethod : String) (notes : Option String) (st : Store) :
    Store × Except PlaceError Order :=
  match processItems items st.products 0 [] with
  | (ps, .error e) => ({ st with products := ps }, .error e)
  | (ps, .ok (subtotal, processedItems)) =>
    let tax : ℚ := subtotal * (1 / 10)
    let shipping : ℚ := if subtotal > 100 then 0 else 10
    let total : ℚ := subtotal + tax + shipping
    let st1 : Store := { st with products := ps }
    let ins := insertOrder st1 userId processedItems shippingAddress paymentMethod
      subtotal tax shipping total notes
    (ins.1, .ok ins.2)

/-- The `PUT /products/:id` route updates the catalog document via
`findByIdAndUpdate` with a `$set` of the submitted fields; projected onto the
fields the order flow snapshots, it rewrites the product's name and price and
touches no other collection. -/
def updateProductCatalog (st : Store) (id : Nat) (name : String) (price : ℚ) : Store :=
  { st with
    products := st.products.map (fun q =>
      if q._id = id then { q with name := name, price := price } else q) }

/-- One entry of the `items` array as the validator sees it: both fields may
be absent, and the quantity may be any JavaScript number. -/
structure ItemInput where
  product : Option String
  quantity : Option JSNum
deriving Repr, DecidableEq

/-- The request body fields that `validateOrder` inspects. -/
structure OrderRequest where
  items : Option (List ItemInput)
  shippingAddress : Option Address
  paymentMethod : Option String
deriving Repr, DecidableEq

/-- `validPaymentMethods` from the validation middleware. -/
def validPaymentMethods : List String := ["credit_card", "paypal", "bank_transfer"]

/-- The per-item rejection test of `validateOrder`:
`!item.product || !item.quantity || isNaN(item.quantity) || item.quantity <= 0`. -/
def badOrderItem (it : ItemInput) : Bool :=
  !jsTruthyStr it.product || !jsTruthyNum it.quantity ||
    jsIsNaN it.quantity || jsLeZero it.quantity

/-- `validateOrder` from the validation middleware: `some message` models a
400 response, `none` models `next()`. -/
def validateOrder (r : OrderRequest) : Option String :=
  match r.items with
  | none => some "Order must contain at least one item"
  | some its =>
    if its.isEmpty then
      some "Order must contain at least one item"
    else if its.any badOrderItem then
      some "Each item must have a valid product ID and positive quantity"
    else
      match r.shippingAddress with
      | none => some "Complete shipping address is required"
      | some a =>
        if !jsTruthyStr a.name || !jsTruthyStr a.street || !jsTruthyStr a.city ||
            !jsTruthyStr a.postalCode || !jsTruthyStr a.country then
          some "Complete shipping address is required"
        else
          match r.paymentMethod with
          | none => some "Valid payment method is required"
          | some pm =>
            if pm ∈ validPaymentMethods then
              none
            else
              some "Valid payment method is required"

/-- `Order.findById` over the order collection. -/
def findOrderById (orders : List Order) (id : Nat) : Option Order :=
  orders.find? (fun o => o._id = id)

/-- The possible responses of the `PATCH /orders/:id/status` handler. -/
inductive StatusResponse where
  | badRequest (msg : String) : StatusResponse
  | notFound : StatusResponse
  | ok (o : Order) : StatusResponse
deriving Repr, DecidableEq

/-- `validStatuses` from the `PATCH /orders/:id/status` handler. -/
def validStatuses : List String :=
  ["pending", "processing", "shipped", "delivered", "cancelled"]

/-- The field update applied by `findByIdAndUpdate` with
`$set: { status, trackingNumber? }`: `trackingNumber` is only set when it is
truthy. -/
def applyStatusUpdate (s : String) (trackingNumber : Option String) (o : Order) : Order :=
  if jsTruthyStr trackingNumber then
    { o with status := s, trackingNumber := trackingNumber }
  else
    { o with status := s }

/-- The `PATCH /orders/:id/status` handler: reject a falsy status
(`!status`, i.e. missing or empty), reject a status outside `validStatuses`,
otherwise update the matching order document (returning the updated document,
as `new: true` does) or report 404. -/
def updateOrderStatus (orders : List Order) (id : Nat)
    (status trackingNumber : Option String) : List Order × StatusResponse :=
  match status with
  | none => (orders, .badRequest "Status is required")
  | some s =>
    if s = "" then
      (orders, .badRequest "Status is required")
    else if s ∈ validStatuses then
      match findOrderById orders id with
      | none => (orders, .notFound)
      | some o =>
        (orders.map (fun x => if x._id = id then applyStatusUpdate s trackingNumber x else x),
          .ok (applyStatusUpdate s trackingNumber o))
    else
      (orders, .badRequest "Invalid status value")

/-- Total money value of a list of line-item snapshots:
sum of price snapshot times quantity. -/
def itemsTotal (l : List OrderItem) : ℚ :=
  (l.map (fun i => i.price * (i.quantity : ℚ))).sum

/-- Total quantity a cart requests for a given product id. -/
def cartQty (items : List CartItem) (pid : Nat) : ℤ :=
  ((items.filter (fun i => i.product = pid)).map (fun i => i.quantity)).sum

/-- The condition on the `items` entries that the validator actually enforces:
a truthy product id, and a quantity that is an actual positive number. -/
def goodItems (its : List ItemInput) : Prop :=
  its ≠ [] ∧ ∀ it ∈ its, jsTruthyStr it.product ∧
    ∃ q : ℚ, 0 < q ∧ it.quantity = some (.num q)

/-- A complete shipping address: all five fields present and non-empty. -/
def goodAddress (a : Address) : Prop :=
  jsTruthyStr a.name ∧ jsTruthyStr a.street ∧ jsTruthyStr a.city ∧
    jsTruthyStr a.postalCode ∧ jsTruthyStr a.country

/-- The requests `validateOrder` passes through: non-empty items each with a
truthy product id and positive numeric quantity, a complete shipping address,
and an enumerated payment method. -/
def goodOrderReq (r : OrderRequest) : Prop :=
  (∃ its, r.items = some its ∧ goodItems its) ∧
  (∃ a, r.shippingAddress = some a ∧ goodAddress a) ∧
  (∃ pm, r.paymentMethod = some pm ∧ pm ∈ validPaymentMethods)

/-- The acceptance condition exactly as claim C8 words it, with a positive
*integer* quantity required for every entry; kept separate so it can be
compared against the behaviour of `validateOrder`. -/
def claimedValidOrderReq (r : OrderRequest) : Prop :=
  (∃ its, r.items = some its ∧ its ≠ [] ∧
    ∀ it ∈ its, jsTruthyStr it.product ∧
      ∃ n : ℤ, 0 < n ∧ it.quantity = some (.num (n : ℚ))) ∧
  (∃ a, r.shippingAddress = some a ∧ goodAddress a) ∧
  (∃ pm, r.paymentMethod = some pm ∧ pm ∈ validPaymentMethods)

/-! ### Concrete fixtures used by the witness theorems -/

/-- A complete shipping address. -/
def sampleAddress : Address :=
  ⟨some "Ada", some "Main St 1", some "Berlin", some "10115", some "DE"⟩

/-- A catalog product: id 1, price 10, five units in stock. -/
def productW : Product := ⟨1, "Widget", 10, 5⟩

/-- A store holding just `productW` and no orders. -/
def storeA : Store := ⟨[productW], [], 0, 0⟩

/-- The order `placeOrder` persists for a cart of three units of `productW`
against `storeA`: subtotal 30, tax 3, shipping 10, total 43. -/
def orderA : Order :=
  ⟨0, 7, [⟨1, "Widget", 10, 3⟩], sampleAddress, "paypal", 30, 3, 10, 43, none,
    "pending", none, 0⟩

/-- The store after that placement: two units left, one pending order. -/
def storeA' : Store := ⟨[⟨1, "Widget", 10, 2⟩], [orderA], 1, 0⟩

/-- A store with ten units in stock, used for the double-submission run. -/
def storeB : Store := ⟨[⟨1, "Widget", 10, 10⟩], [], 0, 0⟩

/-- The order persisted by the first of two identical placements against
`storeB`. -/
def orderB1 : Order :=
  ⟨0, 7, [⟨1, "Widget", 10, 2⟩], sampleAddress, "paypal", 20, 2, 10, 32, none,
    "pending", none, 0⟩

/-- The order persisted by the second of two identical placements against
`storeB`. -/
def orderB2 : Order :=
  ⟨1, 7, [⟨1, "Widget", 10, 2⟩], sampleAddress, "paypal", 20, 2, 10, 32, none,
    "pending", none, 0⟩

/-- The store after the first of the two identical placements. -/
def storeB1 : Store := ⟨[⟨1, "Widget", 10, 8⟩], [orderB1], 1, 0⟩

/-- The store after both placements. -/
def storeB2 : Store := ⟨[⟨1, "Widget", 10, 6⟩], [orderB1, orderB2], 2, 0⟩

/-- A request whose single item has quantity 5/2: every field the validator
checks is fine except that the quantity is not an integer. -/
def reqHalf : OrderRequest :=
  ⟨some [⟨some "p1", some (.num (5 / 2))⟩], some sampleAddress, some "paypal"⟩

/-- A request the validator passes: one item with quantity 2. -/
def reqGood : OrderRequest :=
  ⟨some [⟨some "p1", some (.num 2)⟩], some sampleAddress, some "credit_card"⟩

/-! ### Helper lemmas about the processing loop -/

theorem processItems_nil (ps : List Product) (subtotal : ℚ) (acc : List OrderItem) :
    processItems [] ps subtotal acc = (ps, .ok (subtotal, acc)) := rfl

theorem processItems_cons_none {ps : List Product} {item : CartItem} (rest : List CartItem)
    (subtotal : ℚ) (acc : List OrderItem) (h : findById ps item.product = none) :
    processItems (item :: rest) ps subtotal acc =
      (ps, .error (.productNotFound item.product)) := by
  simp [processItems, h]

theorem processItems_cons_insufficient {ps : List Product} {item : CartItem} {p : Product}
    (rest : List CartItem) (subtotal : ℚ) (acc : List OrderItem)
    (h : findById ps item.product = some p) (hq : p.inventory < item.quantity) :
    processItems (item :: rest) ps subtotal acc =
      (ps, .error (.insufficientInventory p.name p.inventory)) := by
  simp [processItems, h, hq]

theorem processItems_cons_ok {ps : List Product} {item : CartItem} {p : Product}
    (rest : List CartItem) (subtotal : ℚ) (acc : List OrderItem)
    (h : findById ps item.product = some p) (hq : ¬ p.inventory < item.quantity) :
    processItems (item :: rest) ps subtotal acc =
      processItems rest
        (saveProduct ps { p with inventory := p.inventory - item.quantity })
        (subtotal + p.price * (item.quantity : ℚ))
        (acc ++ [{ product := p._id, name := p.name, price := p.price,
                   quantity := item.quantity }]) := by
  simp [processItems, h, hq]

theorem findById_some_id {ps : List Product} {pid : Nat} {p : Product}
    (h : findById ps pid = some p) : p._id = pid := by
  have := List.find?_some h
  simpa using this

theorem findById_cons (q : Product) (t : List Product) (pid : Nat) :
    findById (q :: t) pid = if q._id = pid then some q else findById t pid := by
  by_cases h : q._id = pid <;> simp [findById, List.find?_cons, h]

theorem saveProduct_cons (q : Product) (t : List Product) (p' : Product) :
    saveProduct (q :: t) p' = (if q._id = p'._id then p' else q) :: saveProduct t p' := by
  simp [saveProduct]

theorem findById_saveProduct_eq {ps : List Product} {p p' : Product}
    (hid : p'._id = p._id) (h : findById ps p._id = some p) :
    findById (saveProduct ps p') p._id = some p' := by
  induction ps with
  | nil => simp [findById] at h
  | cons q t ih =>
    rw [saveProduct_cons]
    by_cases hq : q._id = p._id
    · rw [if_pos (hq.trans hid.symm), findById_cons, if_pos hid]
    · rw [if_neg (fun hc => hq (hc.trans hid)), findById_cons, if_neg hq]
      rw [findById_cons, if_neg hq] at h
      exact ih h

theorem findById_saveProduct_ne (ps : List Product) (p' : Product) {pid : Nat}
    (hne : pid ≠ p'._id) :
    findById (saveProduct ps p') pid = findById ps pid := by
  induction ps with
  | nil => rfl
  | cons q t ih =>
    rw [saveProduct_cons]
    by_cases hq : q._id = p'._id
    · have h1 : ¬ p'._id = pid := fun hc => hne hc.symm
      have h2 : ¬ q._id = pid := by rw [hq]; exact h1
      rw [if_pos hq, findById_cons, findById_cons, if_neg h1, if_neg h2]
      exact ih
    · rw [if_neg hq, findById_cons, findById_cons]
      by_cases h2 : q._id = pid
      · rw [if_pos h2, if_pos h2]
      · rw [if_neg h2, if_neg h2]
        exact ih

theorem itemsTotal_append (l₁ l₂ : List OrderItem) :
    itemsTotal (l₁ ++ l₂) = itemsTotal l₁ + itemsTotal l₂ := by
  simp [itemsTotal]

theorem cartQty_cons (item : CartItem) (rest : List CartItem) (pid : Nat) :
    cartQty (item :: rest) pid =
      (if item.product = pid then item.quantity else 0) + cartQty rest pid := by
  by_cases h : item.product = pid <;> simp [cartQty, h]

/-- The accumulated subtotal on success is the initial subtotal plus the money
value of the snapshots added along the way. -/
theorem processItems_ok_subtotal :
    ∀ (items : List CartItem) (ps : List Product) (subtotal : ℚ) (acc : List OrderItem)
      (ps' : List Product) (subtotal' : ℚ) (acc' : List OrderItem),
      processItems items ps subtotal acc = (ps', .ok (subtotal', acc')) →
      subtotal' - itemsTotal acc' = subtotal - itemsTotal acc := by
  intro items
  induction items with
  | nil =>
    intro ps subtotal acc ps' subtotal' acc' h
    rw [processItems_nil] at h
    simp only [Prod.mk.injEq, Except.ok.injEq] at h
    obtain ⟨-, h2, h3⟩ := h
    rw [← h2, ← h3]
  | cons item rest ih =>
    intro ps subtotal acc ps' subtotal' acc' h
    cases hf : findById ps item.product with
    | none => rw [processItems_cons_none rest subtotal acc hf] at h; simp at h
    | some p =>
      by_cases hq : p.inventory < item.quantity
      · rw [processItems_cons_insufficient rest subtotal acc hf hq] at h; simp at h
      · rw [processItems_cons_ok rest subtotal acc hf hq] at h
        have := ih _ _ _ _ _ _ h
        rw [itemsTotal_append] at this
        have hone : itemsTotal [⟨p._id, p.name, p.price, item.quantity⟩] =
            p.price * (item.quantity : ℚ) := by
          simp [itemsTotal]
        rw [hone] at this
        linarith

/-- Whatever the outcome, the processing loop keeps every inventory count
non-negative when all inventory counts start non-negative. -/
theorem processItems_inventory_nonneg :
    ∀ (items : List CartItem) (ps : List Product) (subtotal : ℚ) (acc : List OrderItem),
      (∀ p ∈ ps, 0 ≤ p.inventory) →
      ∀ q ∈ (processItems items ps subtotal acc).1, 0 ≤ q.inventory := by
  intro items
  induction items with
  | nil => intro ps subtotal acc hps q hq; exact hps q hq
  | cons item rest ih =>
    intro ps subtotal acc hps q hq
    cases hf : findById ps item.product with
    | none =>
      rw [processItems_cons_none rest subtotal acc hf] at hq
      exact hps q hq
    | some p =>
      by_cases hlt : p.inventory < item.quantity
      · rw [processItems_cons_insufficient rest subtotal acc hf hlt] at hq
        exact hps q hq
      · rw [processItems_cons_ok rest subtotal acc hf hlt] at hq
        refine ih _ _ _ ?_ q hq
        intro r hr
        obtain ⟨x, hx, hfx⟩ := List.mem_map.mp hr
        by_cases hxid : x._id = p._id
        · rw [if_pos hxid] at hfx
          rw [← hfx]
          show 0 ≤ p.inventory - item.quantity
          omega
        · rw [if_neg hxid] at hfx
          rw [← hfx]
          exact hps x hx

/-- On success, each product's inventory drops by exactly the total quantity
the cart requests for it (and the product stays retrievable under its id). -/
theorem processItems_ok_inventory :
    ∀ (items : List CartItem) (ps : List Product) (subtotal : ℚ) (acc : List OrderItem)
      (ps' : List Product) (r : ℚ × List OrderItem),
      processItems items ps subtotal acc = (ps', .ok r) →
      ∀ (pid : Nat) (p : Product), findById ps pid = some p →
        ∃ q, findById ps' pid = some q ∧ q._id = p._id ∧
          q.inventory = p.inventory - cartQty items pid := by
  intro items
  induction items with
  | nil =>
    intro ps subtotal acc ps' r h pid p hp
    rw [processItems_nil] at h
    simp only [Prod.mk.injEq] at h
    obtain ⟨h1, -⟩ := h
    exact ⟨p, h1 ▸ hp, rfl, by simp [cartQty]⟩
  | cons item rest ih =>
    intro ps subtotal acc ps' r h pid p hp
    cases hf : findById ps item.product with
    | none =>
      rw [processItems_cons_none rest subtotal acc hf] at h
      simp at h
    | some p0 =>
      by_cases hlt : p0.inventory < item.quantity
      · rw [processItems_cons_insufficient rest subtotal acc hf hlt] at h
        simp at h
      · rw [processItems_cons_ok rest subtotal acc hf hlt] at h
        have hid0 : p0._id = item.product := findById_some_id hf
        by_cases hpid : pid = item.product
        · have hf2 : findById ps pid = some p0 := by rw [hpid]; exact hf
          have hpp : p = p0 := Option.some.inj (hp.symm.trans hf2)
          have hf' : findById ps p0._id = some p0 := by rw [hid0]; exact hf
          have hfind0 : findById (saveProduct ps
                { p0 with inventory := p0.inventory - item.quantity }) p0._id =
              some { p0 with inventory := p0.inventory - item.quantity } :=
            findById_saveProduct_eq rfl hf'
          have hfind : findById (saveProduct ps
                { p0 with inventory := p0.inventory - item.quantity }) pid =
              some { p0 with inventory := p0.inventory - item.quantity } := by
            rw [hpid, ← hid0]
            exact hfind0
          obtain ⟨q, hq1, hq2, hq3⟩ := ih _ _ _ _ _ h pid _ hfind
          refine ⟨q, hq1, ?_, ?_⟩
          · rw [hq2]
            show p0._id = p._id
            rw [hpp]
          · rw [hq3, cartQty_cons, if_pos hpid.symm]
            show p0.inventory - item.quantity - cartQty rest pid =
              p.inventory - (item.quantity + cartQty rest pid)
            rw [hpp]
            ring
        · have hne : pid ≠ ({ p0 with inventory := p0.inventory - item.quantity } : Product)._id := by
            show pid ≠ p0._id
            rw [hid0]
            exact hpid
          have hsame := findById_saveProduct_ne ps
            { p0 with inventory := p0.inventory - item.quantity } hne
          have hp' : findById (saveProduct ps
                { p0 with inventory := p0.inventory - item.quantity }) pid = some p := by
            rw [hsame]
            exact hp
          obtain ⟨q, hq1, hq2, hq3⟩ := ih _ _ _ _ _ h pid p hp'
          refine ⟨q, hq1, hq2, ?_⟩
          rw [hq3, cartQty_cons, if_neg (fun hc => hpid hc.symm)]
          ring

/-! ### Helper lemmas about `placeOrder` -/

theorem placeOrder_eq_error {items : List CartItem} {st : Store} {ps : List Product}
    {e : PlaceError} (uid : Nat) (sa : Address) (pm : String) (notes : Option String)
    (hp : processItems items st.products 0 [] = (ps, .error e)) :
    placeOrder uid items sa pm notes st = ({ st with products := ps }, .error e) := by
  unfold placeOrder
  rw [hp]

theorem placeOrder_eq_ok {items : List CartItem} {st : Store} {ps : List Product}
    {subtotal : ℚ} {acc : List OrderItem} (uid : Nat) (sa : Address) (pm : String)
    (notes : Option String)
    (hp : processItems items st.products 0 [] = (ps, .ok (subtotal, acc))) :
    placeOrder uid items sa pm notes st =
      ((insertOrder { st with products := ps } uid acc sa pm subtotal (subtotal * (1 / 10))
          (if subtotal > 100 then 0 else 10)
          (subtotal + subtotal * (1 / 10) + (if subtotal > 100 then 0 else 10)) notes).1,
        .ok (insertOrder { st with products := ps } uid acc sa pm subtotal (subtotal * (1 / 10))
          (if subtotal > 100 then 0 else 10)
          (subtotal + subtotal * (1 / 10) + (if subtotal > 100 then 0 else 10)) notes).2) := by
  unfold placeOrder
  rw [hp]

/-- Every error outcome of `placeOrder` leaves the order collection, the id
counter and the clock untouched; the product collection is whatever the loop
left behind. -/
theorem placeOrder_error {uid : Nat} {items : List CartItem} {sa : Address} {pm : String}
    {notes : Option String} {st st' : Store} {e : PlaceError}
    (h : placeOrder uid items sa pm notes st = (st', .error e)) :
    st'.orders = st.orders ∧ st'.nextOrderId = st.nextOrderId ∧ st'.now = st.now ∧
      st'.products = (processItems items st.products 0 []).1 ∧
      (processItems items st.products 0 []).2 = .error e := by
  rcases hp : processItems items st.products 0 [] with ⟨ps, r⟩
  cases r with
  | error e' =>
    rw [placeOrder_eq_error uid sa pm notes hp] at h
    simp only [Prod.mk.injEq, Except.error.injEq] at h
    obtain ⟨h1, h2⟩ := h
    rw [← h1]
    exact ⟨rfl, rfl, rfl, rfl, by rw [h2]⟩
  | ok v =>
    rcases v with ⟨subtotal, acc⟩
    rw [placeOrder_eq_ok uid sa pm notes hp] at h
    simp at h

/-- Full characterisation of a successful `placeOrder`: one order appended,
identifier and timestamp assigned by the repository, status `"pending"`, the
accumulated snapshots and subtotal, and the tax/shipping/total formulas. -/
theorem placeOrder_ok {uid : Nat} {items : List CartItem} {sa : Address} {pm : String}
    {notes : Option String} {st st' : Store} {o : Order}
    (h : placeOrder uid items sa pm notes st = (st', .ok o)) :
    ∃ ps, processItems items st.products 0 [] = (ps, .ok (o.subtotal, o.items)) ∧
      st'.products = ps ∧
      st'.orders = st.orders ++ [o] ∧
      st'.nextOrderId = st.nextOrderId + 1 ∧
      st'.now = st.now ∧
      o._id = st.nextOrderId ∧ o.createdAt = st.now ∧ o.status = "pending" ∧
      o.user = uid ∧ o.shippingAddress = sa ∧ o.paymentMethod = pm ∧ o.notes = notes ∧
      o.trackingNumber = none ∧
      o.tax = o.subtotal * (1 / 10) ∧
      o.shipping = (if o.subtotal > 100 then (0 : ℚ) else 10) ∧
      o.total = o.subtotal + o.tax + o.shipping := by
  rcases hp : processItems items st.products 0 [] with ⟨ps, r⟩
  cases r with
  | error e =>
    rw [placeOrder_eq_error uid sa pm notes hp] at h
    simp at h
  | ok v =>
    rcases v with ⟨subtotal, acc⟩
    rw [placeOrder_eq_ok uid sa pm notes hp] at h
    simp only [Prod.mk.injEq, Except.ok.injEq] at h
    obtain ⟨h1, h2⟩ := h
    subst h2
    rw [← h1]
    exact ⟨ps, rfl, rfl, rfl, rfl, rfl, rfl, rfl, rfl, rfl, rfl, rfl, rfl, rfl, rfl, rfl, rfl⟩

/-! ### The claims -/

/-- C1: whenever a placement succeeds (every line item resolved with
sufficient inventory), the persisted order satisfies
subtotal = Σ price snapshot × quantity over its line items,
tax = subtotal × 0.10, shipping = 0 if subtotal > 100 else 10, and
total = subtotal + tax + shipping. -/
theorem claim_C1 {uid : Nat} {items : List CartItem} {sa : Address} {pm : String}
    {notes : Option String} {st st' : Store} {o : Order}
    (h : placeOrder uid items sa pm notes st = (st', .ok o)) :
    o.subtotal = itemsTotal o.items ∧
    o.tax = o.subtotal * (1 / 10) ∧
    o.shipping = (if o.subtotal > 100 then (0 : ℚ) else 10) ∧
    o.total = o.subtotal + o.tax + o.shipping := by
  obtain ⟨ps, hp, -, -, -, -, -, -, -, -, -, -, -, -, htax, hship, htot⟩ := placeOrder_ok h
  refine ⟨?_, htax, hship, htot⟩
  have hsub := processItems_ok_subtotal items st.products 0 [] ps o.subtotal o.items hp
  have h0 : itemsTotal ([] : List OrderItem) = 0 := rfl
  rw [h0] at hsub
  linarith

/-- Witness for C1: the placement of three units of `productW` against
`storeA` persists `orderA` (subtotal 30, tax 3, shipping 10, total 43). -/
theorem claim_C1_witness :
    orderA.subtotal = itemsTotal orderA.items ∧
    orderA.tax = orderA.subtotal * (1 / 10) ∧
    orderA.shipping = (if orderA.subtotal > 100 then (0 : ℚ) else 10) ∧
    orderA.total = orderA.subtotal + orderA.tax + orderA.shipping :=
  claim_C1 (by norm_num [placeOrder, processItems, findById, saveProduct, insertOrder, storeA,
    storeA', orderA, productW, sampleAddress, List.find?] :
      placeOrder 7 [⟨1, 3⟩] sampleAddress "paypal" none storeA = (storeA', .ok orderA))

/-- C2: a line item whose requested quantity exceeds the fetched product's
inventory aborts processing at that item with `InsufficientInventory`
carrying the product's name and its inventory immediately before the failed
check, leaving the product collection exactly as it was before that item;
and no error outcome of `placeOrder` ever persists an order. -/
theorem claim_C2 :
    (∀ (item : CartItem) (rest : List CartItem) (ps : List Product) (subtotal : ℚ)
       (acc : List OrderItem) (p : Product),
       findById ps item.product = some p → p.inventory < item.quantity →
       processItems (item :: rest) ps subtotal acc =
         (ps, .error (.insufficientInventory p.name p.inventory))) ∧
    (∀ (uid : Nat) (items : List CartItem) (sa : Address) (pm : String)
       (notes : Option String) (st st' : Store) (n : String) (avail : ℤ),
       placeOrder uid items sa pm notes st = (st', .error (.insufficientInventory n avail)) →
       st'.orders = st.orders) := by
  refine ⟨?_, ?_⟩
  · intro item rest ps subtotal acc p h hq
    exact processItems_cons_insufficient rest subtotal acc h hq
  · intro uid items sa pm notes st st' n avail h
    exact (placeOrder_error h).1

/-- Witness for C2: requesting 3 units with 2 in stock reports name "P" and
available 2 and leaves the collection untouched; the two-item over-request
run persists no order. -/
theorem claim_C2_witness :
    processItems [⟨1, 3⟩] [⟨1, "P", 10, 2⟩] 0 [] =
      ([⟨1, "P", 10, 2⟩], .error (.insufficientInventory "P" 2)) ∧
    (⟨[⟨1, "P", 5, 1⟩], [], 0, 0⟩ : Store).orders = (⟨[⟨1, "P", 5, 3⟩], [], 0, 0⟩ : Store).orders :=
  ⟨claim_C2.1 ⟨1, 3⟩ [] [⟨1, "P", 10, 2⟩] 0 [] ⟨1, "P", 10, 2⟩ rfl (by decide),
   claim_C2.2 7 [⟨1, 2⟩, ⟨1, 2⟩] sampleAddress "credit_card" none ⟨[⟨1, "P", 5, 3⟩], [], 0, 0⟩
     ⟨[⟨1, "P", 5, 1⟩], [], 0, 0⟩ "P" 1 rfl⟩

/-- C3: items are processed strictly in input order, each successful item's
decrement being committed (saved) before the next item is validated; a
failing item returns the collection as the already-committed decrements left
it, reversing nothing; and on the spec's scenario — cart [(P,2),(P,2)] with
P.inventory = 3 — the first item succeeds (3 → 1), the second fails against
remaining inventory 1, no order is persisted and P ends at inventory 1. -/
theorem claim_C3 :
    (∀ (item : CartItem) (rest : List CartItem) (ps : List Product) (subtotal : ℚ)
       (acc : List OrderItem) (p : Product),
       findById ps item.product = some p → ¬ p.inventory < item.quantity →
       processItems (item :: rest) ps subtotal acc =
         processItems rest
           (saveProduct ps { p with inventory := p.inventory - item.quantity })
           (subtotal + p.price * (item.quantity : ℚ))
           (acc ++ [⟨p._id, p.name, p.price, item.quantity⟩])) ∧
    (∀ (item : CartItem) (rest : List CartItem) (ps : List Product) (subtotal : ℚ)
       (acc : List OrderItem) (p : Product),
       findById ps item.product = some p → p.inventory < item.quantity →
       processItems (item :: rest) ps subtotal acc =
         (ps, .error (.insufficientInventory p.name p.inventory))) ∧
    placeOrder 7 [⟨1, 2⟩, ⟨1, 2⟩] sampleAddress "credit_card" none
        ⟨[⟨1, "P", 5, 3⟩], [], 0, 0⟩ =
      (⟨[⟨1, "P", 5, 1⟩], [], 0, 0⟩, .error (.insufficientInventory "P" 1)) := by
  refine ⟨?_, ?_, rfl⟩
  · intro item rest ps subtotal acc p h hq
    exact processItems_cons_ok rest subtotal acc h hq
  · intro item rest ps subtotal acc p h hq
    exact processItems_cons_insufficient rest subtotal acc h hq

/-- Witness for C3: the first step of the scenario cart commits the decrement
3 → 1 before the second item is examined. -/
theorem claim_C3_witness :
    processItems [⟨1, 2⟩, ⟨1, 2⟩] [⟨1, "P", 5, 3⟩] 0 [] =
      processItems [⟨1, 2⟩] (saveProduct [⟨1, "P", 5, 3⟩] ⟨1, "P", 5, 1⟩)
        (0 + 5 * ((2 : ℤ) : ℚ)) ([] ++ [⟨1, "P", 5, 2⟩]) ∧
    processItems [⟨1, 2⟩] [⟨1, "P", 5, 1⟩] 0 [] =
      ([⟨1, "P", 5, 1⟩], .error (.insufficientInventory "P" 1)) :=
  ⟨claim_C3.1 ⟨1, 2⟩ [⟨1, 2⟩] [⟨1, "P", 5, 3⟩] 0 [] ⟨1, "P", 5, 3⟩ rfl (by decide),
   claim_C3.2.1 ⟨1, 2⟩ [] [⟨1, "P", 5, 1⟩] 0 [] ⟨1, "P", 5, 1⟩ rfl (by decide)⟩

/-- C4: a line item whose product id resolves to no product aborts processing
at that item with `ProductNotFound` carrying the unresolvable id, leaving the
collection untouched at that item; and no error outcome of `placeOrder` ever
persists an order. -/
theorem claim_C4 :
    (∀ (item : CartItem) (rest : List CartItem) (ps : List Product) (subtotal : ℚ)
       (acc : List OrderItem),
       findById ps item.product = none →
       processItems (item :: rest) ps subtotal acc =
         (ps, .error (.productNotFound item.product))) ∧
    (∀ (uid : Nat) (items : List CartItem) (sa : Address) (pm : String)
       (notes : Option String) (st st' : Store) (pid : Nat),
       placeOrder uid items sa pm notes st = (st', .error (.productNotFound pid)) →
       st'.orders = st.orders) := by
  refine ⟨?_, ?_⟩
  · intro item rest ps subtotal acc h
    exact processItems_cons_none rest subtotal acc h
  · intro uid items sa pm notes st st' pid h
    exact (placeOrder_error h).1

/-- Witness for C4: product id 2 resolves to nothing in a catalog holding
only id 1, so processing aborts reporting id 2, and the corresponding
placement persists no order. -/
theorem claim_C4_witness :
    processItems [⟨2, 1⟩] [⟨1, "P", 10, 5⟩] 0 [] =
      ([⟨1, "P", 10, 5⟩], .error (.productNotFound 2)) ∧
    (⟨[⟨1, "P", 10, 5⟩], [], 0, 0⟩ : Store).orders =
      (⟨[⟨1, "P", 10, 5⟩], [], 0, 0⟩ : Store).orders :=
  ⟨claim_C4.1 ⟨2, 1⟩ [] [⟨1, "P", 10, 5⟩] 0 [] rfl,
   claim_C4.2 7 [⟨2, 1⟩] sampleAddress "paypal" none ⟨[⟨1, "P", 10, 5⟩], [], 0, 0⟩
     ⟨[⟨1, "P", 10, 5⟩], [], 0, 0⟩ 2 rfl⟩

/-- C5: if every product's inventory is non-negative before a `placeOrder`
call, every product's inventory is still non-negative afterwards, whether the
call succeeded or failed. -/
theorem claim_C5 {uid : Nat} {items : List CartItem} {sa : Address} {pm : String}
    {notes : Option String} {st : Store} {q : Product}
    (h : ∀ p ∈ st.products, 0 ≤ p.inventory)
    (hq : q ∈ (placeOrder uid items sa pm notes st).1.products) :
    0 ≤ q.inventory := by
  have hps : (placeOrder uid items sa pm notes st).1.products =
      (processItems items st.products 0 []).1 := by
    rcases hp : processItems items st.products 0 [] with ⟨ps, r⟩
    cases r with
    | error e => rw [placeOrder_eq_error uid sa pm notes hp]
    | ok v =>
      rcases v with ⟨subtotal, acc⟩
      rw [placeOrder_eq_ok uid sa pm notes hp]
      rfl
  rw [hps] at hq
  exact processItems_inventory_nonneg items st.products 0 [] h q hq

/-- Witness for C5: after the `storeA` placement the remaining product
document still has non-negative inventory. -/
theorem claim_C5_witness : 0 ≤ (⟨1, "Widget", 10, 2⟩ : Product).inventory :=
  claim_C5 (by decide : ∀ p ∈ storeA.products, 0 ≤ p.inventory)
    (by norm_num [placeOrder, processItems, findById, saveProduct, insertOrder, storeA,
      productW, sampleAddress, List.find?] :
        (⟨1, "Widget", 10, 2⟩ : Product) ∈
          (placeOrder 7 [⟨1, 3⟩] sampleAddress "paypal" none storeA).1.products)

/-- C6: a successfully processed line item appends a snapshot holding exactly
the fetched product's id, name and unit price at that moment together with
the requested quantity; and updating the product catalog afterwards (the
`PUT /products/:id` route) leaves the order collection — hence every
persisted order and its line items — unchanged. -/
theorem claim_C6 :
    (∀ (item : CartItem) (rest : List CartItem) (ps : List Product) (subtotal : ℚ)
       (acc : List OrderItem) (p : Product),
       findById ps item.product = some p → ¬ p.inventory < item.quantity →
       processItems (item :: rest) ps subtotal acc =
         processItems rest
           (saveProduct ps { p with inventory := p.inventory - item.quantity })
           (subtotal + p.price * (item.quantity : ℚ))
           (acc ++ [{ product := p._id, name := p.name, price := p.price,
                      quantity := item.quantity }])) ∧
    (∀ (st : Store) (id : Nat) (newName : String) (newPrice : ℚ),
       (updateProductCatalog st id newName newPrice).orders = st.orders) := by
  refine ⟨?_, ?_⟩
  · intro item rest ps subtotal acc p h hq
    exact processItems_cons_ok rest subtotal acc h hq
  · intro st id newName newPrice
    rfl

/-- Witness for C6: the `storeA` item snapshots Widget's id, name and price,
and renaming and repricing the product afterwards leaves the persisted order
collection as it was. -/
theorem claim_C6_witness :
    processItems [⟨1, 3⟩] [⟨1, "Widget", 10, 5⟩] 0 [] =
      processItems [] (saveProduct [⟨1, "Widget", 10, 5⟩] ⟨1, "Widget", 10, 2⟩)
        (0 + 10 * ((3 : ℤ) : ℚ)) ([] ++ [⟨1, "Widget", 10, 3⟩]) ∧
    (updateProductCatalog storeA' 1 "Gadget" 99).orders = storeA'.orders :=
  ⟨claim_C6.1 ⟨1, 3⟩ [] [⟨1, "Widget", 10, 5⟩] 0 [] ⟨1, "Widget", 10, 5⟩ rfl (by decide),
   claim_C6.2 storeA' 1 "Gadget" 99⟩

/-- C7: a fully successful placement appends exactly one order to the order
collection — the one returned — with status "pending", the repository-assigned
identifier and creation timestamp, the accumulated snapshots and subtotal, and
the computed total. -/
theorem claim_C7 {uid : Nat} {items : List CartItem} {sa : Address} {pm : String}
    {notes : Option String} {st st' : Store} {o : Order}
    (h : placeOrder uid items sa pm notes st = (st', .ok o)) :
    st'.orders = st.orders ++ [o] ∧
    o.status = "pending" ∧
    o._id = st.nextOrderId ∧
    o.createdAt = st.now ∧
    (processItems items st.products 0 []).2 = .ok (o.subtotal, o.items) ∧
    o.tax = o.subtotal * (1 / 10) ∧
    o.shipping = (if o.subtotal > 100 then (0 : ℚ) else 10) ∧
    o.total = o.subtotal + o.tax + o.shipping := by
  obtain ⟨ps, hp, h2, h3, h4, h5, h6, h7, h8, h9, h10, h11, h12, h13, h14, h15, h16⟩ :=
    placeOrder_ok h
  exact ⟨h3, h8, h6, h7, by rw [hp], h14, h15, h16⟩

/-- Witness for C7 at the `storeA` placement. -/
theorem claim_C7_witness :
    storeA'.orders = storeA.orders ++ [orderA] ∧
    orderA.status = "pending" ∧
    orderA._id = storeA.nextOrderId ∧
    orderA.createdAt = storeA.now ∧
    (processItems [⟨1, 3⟩] storeA.products 0 []).2 = .ok (orderA.subtotal, orderA.items) ∧
    orderA.tax = orderA.subtotal * (1 / 10) ∧
    orderA.shipping = (if orderA.subtotal > 100 then (0 : ℚ) else 10) ∧
    orderA.total = orderA.subtotal + orderA.tax + orderA.shipping :=
  claim_C7 (by norm_num [placeOrder, processItems, findById, saveProduct, insertOrder, storeA,
    storeA', orderA, productW, sampleAddress, List.find?] :
      placeOrder 7 [⟨1, 3⟩] sampleAddress "paypal" none storeA = (storeA', .ok orderA))

/-- C9: placement is not idempotent — running the same successful request
twice persists two orders with distinct identifiers, both appended to the
order collection, and decrements every product's inventory by twice the
total quantity the cart requests for it. -/
theorem claim_C9 {uid : Nat} {items : List CartItem} {sa : Address} {pm : String}
    {notes : Option String} {st st1 st2 : Store} {o1 o2 : Order}
    (h1 : placeOrder uid items sa pm notes st = (st1, .ok o1))
    (h2 : placeOrder uid items sa pm notes st1 = (st2, .ok o2)) :
    o1._id ≠ o2._id ∧
    st2.orders = st.orders ++ [o1, o2] ∧
    ∀ (pid : Nat) (p : Product), findById st.products pid = some p →
      ∃ q, findById st2.products pid = some q ∧
        q.inventory = p.inventory - 2 * cartQty items pid := by
  obtain ⟨ps1, hp1, hprod1, hord1, hnid1, hnow1, hid1, -, -, -, -, -, -, -, -, -, -⟩ :=
    placeOrder_ok h1
  obtain ⟨ps2, hp2, hprod2, hord2, hnid2, hnow2, hid2, -, -, -, -, -, -, -, -, -, -⟩ :=
    placeOrder_ok h2
  refine ⟨?_, ?_, ?_⟩
  · rw [hid1, hid2, hnid1]
    omega
  · rw [hord2, hord1, List.append_assoc]
    rfl
  · intro pid p hp
    obtain ⟨q1, hq1, hqid1, hinv1⟩ :=
      processItems_ok_inventory items st.products 0 [] ps1 _ hp1 pid p hp
    have hq1' : findById st1.products pid = some q1 := by
      rw [hprod1]
      exact hq1
    obtain ⟨q2, hq2, hqid2, hinv2⟩ :=
      processItems_ok_inventory items st1.products 0 [] ps2 _ hp2 pid q1 hq1'
    refine ⟨q2, by rw [hprod2]; exact hq2, ?_⟩
    rw [hinv2, hinv1]
    ring

/-- Witness for C9: running the two-unit placement twice against `storeB`
yields orders 0 and 1 and leaves Widget's inventory at 10 − 2·2 = 6. -/
theorem claim_C9_witness :
    orderB1._id ≠ orderB2._id ∧
    storeB2.orders = storeB.orders ++ [orderB1, orderB2] ∧
    ∀ (pid : Nat) (p : Product), findById storeB.products pid = some p →
      ∃ q, findById storeB2.products pid = some q ∧
        q.inventory = p.inventory - 2 * cartQty [⟨1, 2⟩] pid :=
  claim_C9
    (by norm_num [placeOrder, processItems, findById, saveProduct, insertOrder, storeB,
      storeB1, orderB1, sampleAddress, List.find?] :
        placeOrder 7 [⟨1, 2⟩] sampleAddress "paypal" none storeB = (storeB1, .ok orderB1))
    (by norm_num [placeOrder, processItems, findById, saveProduct, insertOrder, storeB1,
      storeB2, orderB1, orderB2, sampleAddress, List.find?] :
        placeOrder 7 [⟨1, 2⟩] sampleAddress "paypal" none storeB1 = (storeB2, .ok orderB2))

/-- C10: the admin status update rejects a missing status or any status
outside the five valid ones with a 400 and leaves the collection unchanged;
for a valid status on an existing order it rewrites only that order's status
(and its trackingNumber when a truthy one is supplied) and returns the
updated document. -/
theorem claim_C10 :
    (∀ (orders : List Order) (id : Nat) (status trackingNumber : Option String),
       (∀ s, status = some s → s ∉ validStatuses) →
       ∃ msg, updateOrderStatus orders id status trackingNumber = (orders, .badRequest msg)) ∧
    (∀ (orders : List Order) (id : Nat) (s : String) (trackingNumber : Option String)
       (o : Order), s ∈ validStatuses → findOrderById orders id = some o →
       updateOrderStatus orders id (some s) trackingNumber =
         (orders.map (fun x => if x._id = id then
             { x with status := s,
                      trackingNumber := if jsTruthyStr trackingNumber then trackingNumber
                        else x.trackingNumber }
           else x),
          .ok { o with status := s,
                       trackingNumber := if jsTruthyStr trackingNumber then trackingNumber
                         else o.trackingNumber })) := by
  have hstep : ∀ (orders : List Order) (id : Nat) (s : String) (tn : Option String),
      updateOrderStatus orders id (some s) tn =
        (if s = "" then (orders, .badRequest "Status is required")
         else if s ∈ validStatuses then
           (match findOrderById orders id with
            | none => (orders, StatusResponse.notFound)
            | some o =>
              (orders.map (fun x => if x._id = id then applyStatusUpdate s tn x else x),
                .ok (applyStatusUpdate s tn o)))
         else (orders, .badRequest "Invalid status value")) := fun _ _ _ _ => rfl
  refine ⟨?_, ?_⟩
  · intro orders id status tn hbad
    cases status with
    | none => exact ⟨"Status is required", rfl⟩
    | some s =>
      by_cases hemp : s = ""
      · refine ⟨"Status is required", ?_⟩
        rw [hstep, if_pos hemp]
      · have hs : s ∉ validStatuses := hbad s rfl
        refine ⟨"Invalid status value", ?_⟩
        rw [hstep, if_neg hemp, if_neg hs]
  · intro orders id s tn o hs ho
    have hemp : ¬ s = "" := by
      intro hc
      rw [hc] at hs
      exact absurd hs (by decide)
    have happ : ∀ x : Order, applyStatusUpdate s tn x =
        { x with status := s,
                 trackingNumber := if jsTruthyStr tn then tn else x.trackingNumber } := by
      intro x
      unfold applyStatusUpdate
      by_cases ht : jsTruthyStr tn
      · rw [if_pos ht, if_pos ht]
      · rw [if_neg ht, if_neg ht]
    rw [hstep, if_neg hemp, if_pos hs, ho]
    simp only [happ]

/-- Witness for C10: the bogus status "paid" is rejected without touching the
collection, and setting "shipped" with a tracking number on `orderA` updates
exactly those two fields and returns the updated document. -/
theorem claim_C10_witness :
    (∃ msg, updateOrderStatus [orderA] 0 (some "paid") none = ([orderA], .badRequest msg)) ∧
    updateOrderStatus [orderA] 0 (some "shipped") (some "TRK1") =
      ([orderA].map (fun x => if x._id = 0 then
          { x with status := "shipped",
                   trackingNumber := if jsTruthyStr (some "TRK1") then some "TRK1"
                     else x.trackingNumber }
        else x),
       .ok { orderA with status := "shipped",
                         trackingNumber := if jsTruthyStr (some "TRK1") then some "TRK1"
                           else orderA.trackingNumber }) :=
  ⟨claim_C10.1 [orderA] 0 (some "paid") none
      (fun s h => by injection h with h2; rw [← h2]; decide),
   claim_C10.2 [orderA] 0 "shipped" (some "TRK1") orderA (by decide) rfl⟩

/-! ### The validator (claim C8) -/

theorem badOrderItem_eq_false_iff (it : ItemInput) :
    badOrderItem it = false ↔
      (jsTruthyStr it.product ∧ ∃ q : ℚ, 0 < q ∧ it.quantity = some (.num q)) := by
  rcases it with ⟨prod, qty⟩
  cases qty with
  | none => simp [badOrderItem, jsTruthyNum, jsIsNaN, jsLeZero]
  | some jn =>
    cases jn with
    | nan => simp [badOrderItem, jsTruthyNum, jsIsNaN, jsLeZero]
    | num q =>
      simp only [badOrderItem, jsTruthyNum, jsIsNaN, jsLeZero, Bool.or_eq_false_iff,
        Bool.not_eq_false', decide_eq_false_iff_not, not_le, Option.some.injEq,
        JSNum.num.injEq]
      constructor
      · rintro ⟨⟨⟨h1, -⟩, -⟩, h3⟩
        exact ⟨h1, q, h3, rfl⟩
      · rintro ⟨h1, q2, hq2, hq⟩
        subst hq
        exact ⟨⟨⟨h1, decide_eq_true (ne_of_gt hq2)⟩, trivial⟩, hq2⟩

theorem any_badOrderItem_eq_false_iff (its : List ItemInput) :
    its.any badOrderItem = false ↔
      ∀ it ∈ its, jsTruthyStr it.product ∧ ∃ q : ℚ, 0 < q ∧ it.quantity = some (.num q) := by
  rw [List.any_eq_false]
  constructor
  · intro h it hit
    exact (badOrderItem_eq_false_iff it).mp (Bool.eq_false_iff.mpr (h it hit))
  · intro h it hit
    exact Bool.eq_false_iff.mp ((badOrderItem_eq_false_iff it).mpr (h it hit))

theorem addressCheck_eq_false_iff (a : Address) :
    (!jsTruthyStr a.name || !jsTruthyStr a.street || !jsTruthyStr a.city ||
      !jsTruthyStr a.postalCode || !jsTruthyStr a.country) = false ↔ goodAddress a := by
  simp [goodAddress]
  tauto

/-- C8 amended: the validator accepts exactly the requests whose items list is
present and non-empty with every entry holding a truthy product id and a
positive *numeric* quantity (integrality is NOT checked), whose shipping
address has all five fields non-empty, and whose payment method is one of the
three enumerated values. -/
theorem claim_C8 (r : OrderRequest) : validateOrder r = none ↔ goodOrderReq r := by
  rcases r with ⟨oits, osa, opm⟩
  cases oits with
  | none => simp [validateOrder, goodOrderReq]
  | some its =>
    cases hemp : its.isEmpty with
    | true =>
      have h0 : its = [] := by
        cases its with
        | nil => rfl
        | cons a l => simp [List.isEmpty] at hemp
      subst h0
      simp [validateOrder, goodOrderReq, goodItems]
    | false =>
      have hne : its ≠ [] := by
        intro hc
        rw [hc] at hemp
        simp [List.isEmpty] at hemp
      cases hbad : its.any badOrderItem with
      | true =>
        have hval : validateOrder ⟨some its, osa, opm⟩ =
            some "Each item must have a valid product ID and positive quantity" := by
          simp [validateOrder, hemp, hbad]
        rw [hval]
        constructor
        · intro h
          simp at h
        · rintro ⟨⟨its2, hits2, -, hall⟩, -, -⟩
          injection hits2 with h2
          subst h2
          have hfalse := (any_badOrderItem_eq_false_iff its).mpr hall
          rw [hbad] at hfalse
          exact Bool.noConfusion hfalse
      | false =>
        cases osa with
        | none =>
          have hval : validateOrder ⟨some its, none, opm⟩ =
              some "Complete shipping address is required" := by
            simp [validateOrder, hemp, hbad]
          rw [hval]
          constructor
          · intro h
            simp at h
          · rintro ⟨-, ⟨a, ha, -⟩, -⟩
            simp at ha
        | some a =>
          cases haddr : (!jsTruthyStr a.name || !jsTruthyStr a.street || !jsTruthyStr a.city ||
              !jsTruthyStr a.postalCode || !jsTruthyStr a.country) with
          | true =>
            have hval : validateOrder ⟨some its, some a, opm⟩ =
                some "Complete shipping address is required" := by
              simp [validateOrder, hemp, hbad, haddr]
            rw [hval]
            constructor
            · intro h
              simp at h
            · rintro ⟨-, ⟨a2, ha2, hgood⟩, -⟩
              injection ha2 with h2
              subst h2
              have hfalse := (addressCheck_eq_false_iff a).mpr hgood
              rw [haddr] at hfalse
              exact Bool.noConfusion hfalse
          | false =>
            cases opm with
            | none =>
              have hval : validateOrder ⟨some its, some a, none⟩ =
                  some "Valid payment method is required" := by
                simp [validateOrder, hemp, hbad, haddr]
              rw [hval]
              constructor
              · intro h
                simp at h
              · rintro ⟨-, -, ⟨pm, hpm, -⟩⟩
                simp at hpm
            | some pm =>
              by_cases hpm : pm ∈ validPaymentMethods
              · have hval : validateOrder ⟨some its, some a, some pm⟩ = none := by
                  simp [validateOrder, hemp, hbad, haddr, hpm]
                rw [hval]
                constructor
                · rintro -
                  exact ⟨⟨its, rfl, hne, (any_badOrderItem_eq_false_iff its).mp hbad⟩,
                    ⟨a, rfl, (addressCheck_eq_false_iff a).mp haddr⟩, ⟨pm, rfl, hpm⟩⟩
                · rintro -
                  rfl
              · have hval : validateOrder ⟨some its, some a, some pm⟩ =
                    some "Valid payment method is required" := by
                  simp [validateOrder, hemp, hbad, haddr, hpm]
                rw [hval]
                constructor
                · intro h
                  simp at h
                · rintro ⟨-, -, ⟨pm2, hpm2, hmem⟩⟩
                  injection hpm2 with h2
                  subst h2
                  exact absurd hmem hpm

/-- Counterexample to C8 as frozen: the request `reqHalf`, whose only item
has quantity 5/2, is passed through by the validator even though 5/2 is not
a positive integer, so the validator does not reject every request whose
entries lack a positive integer quantity. -/
theorem claim_C8_counterexample :
    validateOrder reqHalf = none ∧ ¬ claimedValidOrderReq reqHalf := by
  refine ⟨?_, ?_⟩
  · simp [validateOrder, reqHalf, badOrderItem, jsTruthyStr, jsTruthyNum, jsIsNaN, jsLeZero,
      sampleAddress, validPaymentMethods]
  · rintro ⟨⟨its, hits, -, hall⟩, -, -⟩
    have hits2 : ([⟨some "p1", some (.num (5 / 2))⟩] : List ItemInput) = its :=
      Option.some.inj hits
    obtain ⟨-, n, hn, hq⟩ := hall ⟨some "p1", some (.num (5 / 2))⟩ (by rw [← hits2]; simp)
    have h52 : (5 / 2 : ℚ) = (n : ℚ) := JSNum.num.inj (Option.some.inj hq)
    have h2n : ((2 * n : ℤ) : ℚ) = 5 := by
      push_cast
      rw [← h52]
      ring
    have h2n' : (2 * n : ℤ) = 5 := by exact_mod_cast h2n
    omega

/-- Witness for the amended C8: the validator passes `reqGood`. -/
theorem claim_C8_witness : validateOrder reqGood = none := by
  refine (claim_C8 reqGood).mpr ⟨⟨_, rfl, ?_, ?_⟩, ⟨_, rfl, ?_⟩, ⟨_, rfl, by decide⟩⟩
  · simp [reqGood]
  · intro it hit
    simp only [reqGood, List.mem_singleton] at hit
    subst hit
    exact ⟨by decide, 2, by norm_num, rfl⟩
  · simp [goodAddress, sampleAddress, jsTruthyStr]

end AdminStore
